import Mathlib

/-!
Verification of the headless PvP arena simulation (src/arena.rs).

The Rust code works on f64; here every f64 is modelled as an exact rational
number (ℚ).  The four floating-point library functions the code calls
(sqrt, sin, cos, atan2) are modelled by computable rational stand-ins below;
each stand-in is exact on the values the verified scenarios exercise
(perfect squares for sqrt, quadrant angles for sin/cos/atan2) and no theorem
in this file depends on their values elsewhere.  u32 fields are modelled as
Nat, so saturating_sub is plain Nat subtraction.
-/

namespace Pyzalea

/-! ## Combat constants (src/arena.rs lines 7-27) -/

def ATTACK_RANGE : ℚ := 3
def ATTACK_COOLDOWN_TICKS : Nat := 10
def SPRINT_CRIT_MULTIPLIER : ℚ := 3/2
def BASE_DAMAGE_IRON_SWORD : ℚ := 6
def DIAMOND_ARMOR_REDUCTION : ℚ := 4/5
def MAX_HEALTH : ℚ := 20
def MAX_FOOD : ℚ := 20
def FOOD_HEAL_THRESHOLD : ℚ := 18
def FOOD_HEAL_AMOUNT : ℚ := 1
def FOOD_PER_STEAK : ℚ := 8
def EAT_TICKS : Nat := 32

def WALK_SPEED : ℚ := 1/10
def SPRINT_SPEED : ℚ := 13/100
def JUMP_VELOCITY : ℚ := 21/50
def GRAVITY : ℚ := 2/25
def DRAG : ℚ := 49/50
def KNOCKBACK_HORIZONTAL : ℚ := 2/5
def KNOCKBACK_VERTICAL : ℚ := 9/25

/-! ## Rational stand-ins for the f64 library functions -/

/-- Largest k ≤ fuel with k*k ≤ n (linear search, structurally recursive). -/
def natSqrtAux (n : Nat) : Nat → Nat
  | 0 => 0
  | k+1 => if (k+1)*(k+1) ≤ n then k+1 else natSqrtAux n k

/-- Integer square root: the largest k with k*k ≤ n. -/
def natSqrt (n : Nat) : Nat := natSqrtAux n n

/-- Rational stand-in for f64::sqrt.  For q = a/b (reduced) it returns
floor(sqrt(a*b))/b, which is the exact square root whenever q is the square
of a rational; only such radicands occur in the theorems below. -/
def sqrtQ (q : ℚ) : ℚ :=
  if q ≤ 0 then 0 else (natSqrt (q.num.toNat * q.den) : ℚ) / (q.den : ℚ)

/-- Rational stand-in for degrees-to-radians followed by f64::sin
(the code always writes x.to_radians().sin()).  Exact at the quadrant
angles; every scenario verified below keeps yaw at a quadrant angle. -/
def sinDeg (θ : ℚ) : ℚ :=
  if θ = 90 then 1 else if θ = -90 then -1 else 0

/-- Rational stand-in for degrees-to-radians followed by f64::cos.
Exact at the quadrant angles, like sinDeg. -/
def cosDeg (θ : ℚ) : ℚ :=
  if θ = 0 then 1
  else if θ = 180 ∨ θ = -180 then -1
  else 0

/-- Rational stand-in for f64::atan2 followed by to_degrees.  Exact on the
coordinate axes (including atan2(0,0) = 0, as for f64); every scenario
verified below keeps both fighters on one axis. -/
def atan2Deg (y x : ℚ) : ℚ :=
  if x = 0 then (if 0 < y then 90 else if y < 0 then -90 else 0)
  else if y = 0 then (if 0 < x then 0 else 180)
  else 0

/-- f64::clamp. -/
def clampQ (x lo hi : ℚ) : ℚ := if x < lo then lo else if x > hi then hi else x

/-- Closed form of the two yaw-normalization while loops
(while yaw > 180 subtract 360; while yaw < -180 add 360). -/
def wrapYaw (y : ℚ) : ℚ :=
  if 180 < y then y - 360 * (⌈(y - 180) / 360⌉ : ℤ)
  else if y < -180 then y + 360 * (⌈(-180 - y) / 360⌉ : ℤ)
  else y

/-! ## Data model (src/arena.rs lines 29-185) -/

structure Fighter where
  x : ℚ
  y : ℚ
  z : ℚ
  vx : ℚ
  vy : ℚ
  vz : ℚ
  yaw : ℚ
  pitch : ℚ
  health : ℚ
  food : ℚ
  steaks : Nat
  attack_cooldown : Nat
  eating_ticks : Nat
  jump_cooldown : Nat
  on_ground : Bool
  sprinting : Bool
  eating : Bool
  damage_dealt : ℚ
  damage_taken : ℚ
  hits_landed : Nat
  hits_taken : Nat
deriving DecidableEq

/-- impl Default for Fighter. -/
def Fighter.default : Fighter where
  x := 0; y := 0; z := 0
  vx := 0; vy := 0; vz := 0
  yaw := 0; pitch := 0
  health := MAX_HEALTH
  food := MAX_FOOD
  steaks := 64
  attack_cooldown := 0
  eating_ticks := 0
  jump_cooldown := 0
  on_ground := true
  sprinting := false
  eating := false
  damage_dealt := 0
  damage_taken := 0
  hits_landed := 0
  hits_taken := 0

/-- Fighter::cooldown_progress. -/
def cooldown_progress (f : Fighter) : ℚ :=
  if f.attack_cooldown = 0 then 1
  else 1 - (f.attack_cooldown : ℚ) / (ATTACK_COOLDOWN_TICKS : ℚ)

structure FighterAction where
  forward : Bool
  backward : Bool
  left : Bool
  right : Bool
  jump : Bool
  sprint : Bool
  attack : Bool
  eat : Bool
  delta_yaw : ℚ
  delta_pitch : ℚ
deriving DecidableEq

/-- derive Default for FighterAction. -/
def FighterAction.default : FighterAction where
  forward := false; backward := false; left := false; right := false
  jump := false; sprint := false; attack := false; eat := false
  delta_yaw := 0; delta_pitch := 0

structure FastArena where
  fighter1 : Fighter
  fighter2 : Fighter
  tick : Nat
  done : Bool
  winner : Int
  min_x : ℚ
  max_x : ℚ
  min_z : ℚ
  max_z : ℚ
  floor_y : ℚ
  max_ticks : Nat
deriving DecidableEq

/-- FastArena::new. -/
def FastArena.new (arena_size : ℚ) (max_ticks : Nat) : FastArena where
  fighter1 := Fighter.default
  fighter2 := Fighter.default
  tick := 0
  done := false
  winner := 0
  min_x := -(arena_size / 2)
  max_x := arena_size / 2
  min_z := -(arena_size / 2)
  max_z := arena_size / 2
  floor_y := 0
  max_ticks := max_ticks

/-- FastArena::reset. -/
def reset (s : FastArena) (spawn_distance : ℚ) : FastArena :=
  { s with
    fighter1 := { Fighter.default with
      x := -spawn_distance / 2, z := 0, yaw := -90 }
    fighter2 := { Fighter.default with
      x := spawn_distance / 2, z := 0, yaw := 90 }
    tick := 0
    done := false
    winner := 0 }

/-! ## Movement integrator (FastArena::apply_movement) -/

def apply_movement (s : FastArena) (f : Fighter) (a : FighterAction) : Fighter :=
  let yaw1 := wrapYaw (f.yaw + a.delta_yaw)
  let pitch1 := clampQ (f.pitch + a.delta_pitch) (-90) 90
  let sin_yaw := sinDeg yaw1
  let cos_yaw := cosDeg yaw1
  let mx0 := (if a.forward then -sin_yaw else 0) + (if a.backward then sin_yaw else 0)
    + (if a.left then cos_yaw else 0) + (if a.right then -cos_yaw else 0)
  let mz0 := (if a.forward then cos_yaw else 0) + (if a.backward then -cos_yaw else 0)
    + (if a.left then sin_yaw else 0) + (if a.right then -sin_yaw else 0)
  let move_len := sqrtQ (mx0 * mx0 + mz0 * mz0)
  let mx := if 0 < move_len then mx0 / move_len else mx0
  let mz := if 0 < move_len then mz0 / move_len else mz0
  let sprint1 := a.sprint && a.forward && decide (6 < f.food)
  let speed := if sprint1 then SPRINT_SPEED else WALK_SPEED
  let vx1 := if f.eating then f.vx else f.vx + mx * speed
  let vz1 := if f.eating then f.vz else f.vz + mz * speed
  let doJump := a.jump && f.on_ground && !f.eating && decide (f.jump_cooldown = 0)
  let vy1 := if doJump then JUMP_VELOCITY else f.vy
  let ground1 := if doJump then false else f.on_ground
  let jc1 := if doJump then 10 else f.jump_cooldown
  let vy2 := if ground1 then vy1 else vy1 - GRAVITY
  let vx2 := vx1 * DRAG
  let vz2 := vz1 * DRAG
  let x1 := f.x + vx2
  let y1 := f.y + vy2
  let z1 := f.z + vz2
  { f with
    yaw := yaw1
    pitch := pitch1
    sprinting := sprint1
    jump_cooldown := jc1
    vx := vx2
    vz := vz2
    vy := if y1 ≤ s.floor_y then 0 else vy2
    y := if y1 ≤ s.floor_y then s.floor_y else y1
    on_ground := if y1 ≤ s.floor_y then true else ground1
    x := clampQ x1 s.min_x s.max_x
    z := clampQ z1 s.min_z s.max_z }

/-! ## Combat resolver (FastArena::try_attack) -/

def try_attack (s : FastArena) (attacker_idx : Nat) : FastArena × Bool :=
  let attacker := if attacker_idx = 0 then s.fighter1 else s.fighter2
  let defender := if attacker_idx = 0 then s.fighter2 else s.fighter1
  if 0 < attacker.attack_cooldown ∨ attacker.eating = true then (s, false)
  else
    let dx := defender.x - attacker.x
    let dy := defender.y - attacker.y
    let dz := defender.z - attacker.z
    let dist := sqrtQ (dx * dx + dy * dy + dz * dz)
    if ATTACK_RANGE < dist then (s, false)
    else
      let to_target_yaw := atan2Deg (-dx) dz
      let yd0 := |attacker.yaw - to_target_yaw|
      let yaw_diff := if 180 < yd0 then 360 - yd0 else yd0
      if 60 < yaw_diff then (s, false)
      else
        let damage0 := BASE_DAMAGE_IRON_SWORD
        let damage1 :=
          if attacker.sprinting && !attacker.on_ground then damage0 * SPRINT_CRIT_MULTIPLIER
          else damage0
        let damage := damage1 * (1 - DIAMOND_ARMOR_REDUCTION)
        let defender1 := { defender with
          health := defender.health - damage
          damage_taken := defender.damage_taken + damage
          hits_taken := defender.hits_taken + 1
          vx := defender.vx + -(sinDeg attacker.yaw) * KNOCKBACK_HORIZONTAL
          vz := defender.vz + (cosDeg attacker.yaw) * KNOCKBACK_HORIZONTAL
          vy := defender.vy + KNOCKBACK_VERTICAL
          on_ground := false
          eating := false
          eating_ticks := 0 }
        let attacker1 := { attacker with
          damage_dealt := attacker.damage_dealt + damage
          hits_landed := attacker.hits_landed + 1
          attack_cooldown := ATTACK_COOLDOWN_TICKS
          sprinting := false }
        (if attacker_idx = 0 then { s with fighter1 := attacker1, fighter2 := defender1 }
         else { s with fighter1 := defender1, fighter2 := attacker1 }, true)

/-! ## Consumable/regen processor (FastArena::process_eating) -/

def process_eating (f : Fighter) (wants_eat : Bool) : Fighter :=
  let f1 :=
    if wants_eat && !f.eating && decide (0 < f.steaks) && decide (f.food < MAX_FOOD) then
      { f with eating := true, eating_ticks := EAT_TICKS }
    else f
  let f2 :=
    if f1.eating then
      let t := f1.eating_ticks - 1
      if t = 0 then
        { f1 with
          eating := false
          eating_ticks := 0
          steaks := f1.steaks - 1
          food := min (f1.food + FOOD_PER_STEAK) MAX_FOOD }
      else { f1 with eating_ticks := t }
    else f1
  if FOOD_HEAL_THRESHOLD ≤ f2.food ∧ f2.health < MAX_HEALTH then
    { f2 with
      health := min (f2.health + FOOD_HEAL_AMOUNT * (1/20)) MAX_HEALTH
      food := f2.food - 1/10 }
  else f2

/-! ## Match orchestrator (FastArena::step), split into its per-tick phases -/

/-- Phase 1: decrement all cooldowns, saturating at zero. -/
def stepAfterCooldowns (s : FastArena) : FastArena :=
  { s with
    fighter1 := { s.fighter1 with
      attack_cooldown := s.fighter1.attack_cooldown - 1
      jump_cooldown := s.fighter1.jump_cooldown - 1 }
    fighter2 := { s.fighter2 with
      attack_cooldown := s.fighter2.attack_cooldown - 1
      jump_cooldown := s.fighter2.jump_cooldown - 1 } }

/-- Phases 1-2: cooldowns, then movement for both fighters. -/
def stepAfterMovement (s : FastArena) (a1 a2 : FighterAction) : FastArena :=
  let sc := stepAfterCooldowns s
  { sc with
    fighter1 := apply_movement sc sc.fighter1 a1
    fighter2 := apply_movement sc sc.fighter2 a2 }

/-- The attack attempt of fighter 1: try_attack 0 when the attack intent is set. -/
def stepAttack1 (s : FastArena) (a1 : FighterAction) : FastArena × Bool :=
  if a1.attack then try_attack s 0 else (s, false)

/-- The attack attempt of fighter 2, resolved after that of fighter 1. -/
def stepAttack2 (s : FastArena) (a2 : FighterAction) : FastArena × Bool :=
  if a2.attack then try_attack s 1 else (s, false)

/-- Phases 1-3: then the attack attempt of fighter 1, then that of fighter 2.
Returns the state together with the (hit1, hit2) flags. -/
def stepAttacksResult (s : FastArena) (a1 a2 : FighterAction) : FastArena × Bool × Bool :=
  let p1 := stepAttack1 (stepAfterMovement s a1 a2) a1
  let p2 := stepAttack2 p1.1 a2
  (p2.1, p1.2, p2.2)

/-- Phases 1-4: then the consumable/regen processor for both fighters. -/
def stepAfterEating (s : FastArena) (a1 a2 : FighterAction) : FastArena :=
  let sa := (stepAttacksResult s a1 a2).1
  { sa with
    fighter1 := process_eating sa.fighter1 a1.eat
    fighter2 := process_eating sa.fighter2 a2.eat }

/-- finished_eating1 flag of step: was eating, no longer eating after the
tick, and the countdown stood at exactly 1 at the start of the tick. -/
def finished_eating1 (s : FastArena) (a1 a2 : FighterAction) : Bool :=
  s.fighter1.eating && !(stepAfterEating s a1 a2).fighter1.eating
    && decide (s.fighter1.eating_ticks = 1)

def finished_eating2 (s : FastArena) (a1 a2 : FighterAction) : Bool :=
  s.fighter2.eating && !(stepAfterEating s a1 a2).fighter2.eating
    && decide (s.fighter2.eating_ticks = 1)

/-- interrupted_eating1 flag of step: was eating, no longer eating, and the
countdown stood above 1 at the start of the tick. -/
def interrupted_eating1 (s : FastArena) (a1 a2 : FighterAction) : Bool :=
  s.fighter1.eating && !(stepAfterEating s a1 a2).fighter1.eating
    && decide (1 < s.fighter1.eating_ticks)

def interrupted_eating2 (s : FastArena) (a1 a2 : FighterAction) : Bool :=
  s.fighter2.eating && !(stepAfterEating s a1 a2).fighter2.eating
    && decide (1 < s.fighter2.eating_ticks)

/-- The symmetric proximity-shaping term of step: rewards both fighters as
the horizontal distance after the tick shrinks below 10. -/
def closenessReward (s : FastArena) (a1 a2 : FighterAction) : ℚ :=
  let se := stepAfterEating s a1 a2
  let ddx := se.fighter2.x - se.fighter1.x
  let ddz := se.fighter2.z - se.fighter1.z
  let dist := sqrtQ (ddx * ddx + ddz * ddz)
  if dist < 10 then (10 - dist) * (1/100) else 0

/-- The reward of fighter 1 for the tick, all terms in source order. -/
def reward1 (s : FastArena) (a1 a2 : FighterAction) : ℚ :=
  let hit1 := (stepAttacksResult s a1 a2).2.1
  let whiff1 := a1.attack && !hit1
  let se := stepAfterEating s a1 a2
  let damage1_dealt := s.fighter2.health - se.fighter2.health
  let damage2_dealt := s.fighter1.health - se.fighter1.health
  let heal1 := max (se.fighter1.health - s.fighter1.health) 0
  let hit_bonus1 : ℚ := if hit1 then 1/5 else 0
  let whiff_pen1 : ℚ := if whiff1 then 1/20 else 0
  let jump_pen1 : ℚ := if a1.jump && decide (0 < se.fighter1.jump_cooldown) then 3/100 else 0
  let eat_tick_bonus1 : ℚ := if se.fighter1.eating && s.fighter1.eating then 1/50 else 0
  let finish_bonus1 : ℚ := if finished_eating1 s a1 a2 then 1/2 else 0
  let interrupt_pen1 : ℚ := if interrupted_eating1 s a1 a2 then 3/10 else 0
  damage1_dealt * (1/2) - damage2_dealt * (3/10)
    + hit_bonus1 - whiff_pen1 - jump_pen1 + heal1 * (3/10)
    + eat_tick_bonus1 + finish_bonus1 - interrupt_pen1 + closenessReward s a1 a2 - 1/1000

/-- The reward of fighter 2 for the tick, all terms in source order. -/
def reward2 (s : FastArena) (a1 a2 : FighterAction) : ℚ :=
  let hit2 := (stepAttacksResult s a1 a2).2.2
  let whiff2 := a2.attack && !hit2
  let se := stepAfterEating s a1 a2
  let damage1_dealt := s.fighter2.health - se.fighter2.health
  let damage2_dealt := s.fighter1.health - se.fighter1.health
  let heal2 := max (se.fighter2.health - s.fighter2.health) 0
  let hit_bonus2 : ℚ := if hit2 then 1/5 else 0
  let whiff_pen2 : ℚ := if whiff2 then 1/20 else 0
  let jump_pen2 : ℚ := if a2.jump && decide (0 < se.fighter2.jump_cooldown) then 3/100 else 0
  let eat_tick_bonus2 : ℚ := if se.fighter2.eating && s.fighter2.eating then 1/50 else 0
  let finish_bonus2 : ℚ := if finished_eating2 s a1 a2 then 1/2 else 0
  let interrupt_pen2 : ℚ := if interrupted_eating2 s a1 a2 then 3/10 else 0
  damage2_dealt * (1/2) - damage1_dealt * (3/10)
    + hit_bonus2 - whiff_pen2 - jump_pen2 + heal2 * (3/10)
    + eat_tick_bonus2 + finish_bonus2 - interrupt_pen2 + closenessReward s a1 a2 - 1/1000

/-- The body of FastArena::step for a non-terminal match: phases 1-4 above,
then the tick increment, the reward terms in source order, and the
termination check.  Returns (state, reward1, reward2, done). -/
def stepCore (s : FastArena) (a1 a2 : FighterAction) : FastArena × ℚ × ℚ × Bool :=
  let se := stepAfterEating s a1 a2
  let tick1 := s.tick + 1
  let r1 := reward1 s a1 a2
  let r2 := reward2 s a1 a2
  let speed_bonus := 5 * (1 - (tick1 : ℚ) / (s.max_ticks : ℚ))
  if se.fighter1.health ≤ 0 then
    ({ se with tick := tick1, done := true, winner := 2 },
      r1 - 10, r2 + 10 + speed_bonus, true)
  else if se.fighter2.health ≤ 0 then
    ({ se with tick := tick1, done := true, winner := 1 },
      r1 + 10 + speed_bonus, r2 - 10, true)
  else if s.max_ticks ≤ tick1 then
    if se.fighter2.health < se.fighter1.health then
      ({ se with tick := tick1, done := true, winner := 1 }, r1 + 2, r2 - 2, true)
    else if se.fighter1.health < se.fighter2.health then
      ({ se with tick := tick1, done := true, winner := 2 }, r1 - 2, r2 + 2, true)
    else
      ({ se with tick := tick1, done := true, winner := -1 }, r1 - 3, r2 - 3, true)
  else
    ({ se with tick := tick1 }, r1, r2, false)

/-- FastArena::step: returns (0, 0, true) immediately when already terminal. -/
def step (s : FastArena) (a1 a2 : FighterAction) : FastArena × ℚ × ℚ × Bool :=
  if s.done then (s, 0, 0, true) else stepCore s a1 a2

/-! ## Observation encoder (FastArena::get_obs) -/

/-- FastArena::get_obs.  The Rust method takes &self but reads no field of
the arena, so the embedding takes only the two fighters. -/
def get_obs (me enemy : Fighter) : List ℚ :=
  let dx := enemy.x - me.x
  let dy := enemy.y - me.y
  let dz := enemy.z - me.z
  let dist := sqrtQ (dx * dx + dy * dy + dz * dz)
  let enemy_to_me_yaw := atan2Deg (- -dx) (-dz)
  [ me.x / 32, me.y / 32, me.z / 32,
    me.vx, me.vy, me.vz,
    me.health / MAX_HEALTH, me.food / MAX_FOOD,
    cooldown_progress me,
    me.yaw / 180, me.pitch / 90,
    (if me.on_ground then 1 else 0), (if me.sprinting then 1 else 0),
    dx / 32, dy / 16, dz / 32,
    min (dist / 32) 1,
    enemy.health / MAX_HEALTH,
    enemy_to_me_yaw / 180,
    enemy.vx, enemy.vy, enemy.vz,
    1,
    me.damage_dealt / 40, me.damage_taken / 40,
    (me.hits_landed : ℚ) / 20, (me.hits_taken : ℚ) / 20,
    (if me.eating then 1 else 0),
    (me.eating_ticks : ℚ) / (EAT_TICKS : ℚ),
    (if enemy.eating then 1 else 0),
    (me.steaks : ℚ) / 64 ]

def get_obs1 (s : FastArena) : List ℚ := get_obs s.fighter1 s.fighter2

def get_obs2 (s : FastArena) : List ℚ := get_obs s.fighter2 s.fighter1

/-! ## Batch container (ArenaVec) -/

structure ArenaVec where
  arenas : List FastArena
deriving DecidableEq

def ArenaVec.new (count : Nat) (arena_size : ℚ) (max_ticks : Nat) : ArenaVec :=
  ⟨List.replicate count (FastArena.new arena_size max_ticks)⟩

def ArenaVec.len (v : ArenaVec) : Nat := v.arenas.length

def ArenaVec.reset_all (v : ArenaVec) (spawn_distance : ℚ) : ArenaVec :=
  ⟨v.arenas.map (fun a => Pyzalea.reset a spawn_distance)⟩

def ArenaVec.reset (v : ArenaVec) (idx : Nat) (spawn_distance : ℚ) : ArenaVec :=
  if h : idx < v.arenas.length then
    ⟨v.arenas.set idx (Pyzalea.reset (v.arenas.get ⟨idx, h⟩) spawn_distance)⟩
  else v

def ArenaVec.step (v : ArenaVec) (idx : Nat) (a1 a2 : FighterAction) :
    ArenaVec × ℚ × ℚ × Bool :=
  if h : idx < v.arenas.length then
    let r := Pyzalea.step (v.arenas.get ⟨idx, h⟩) a1 a2
    (⟨v.arenas.set idx r.1⟩, r.2.1, r.2.2.1, r.2.2.2)
  else (v, 0, 0, true)

def ArenaVec.get_obs1 (v : ArenaVec) (idx : Nat) : List ℚ :=
  if h : idx < v.arenas.length then Pyzalea.get_obs1 (v.arenas.get ⟨idx, h⟩)
  else List.replicate 27 0

def ArenaVec.get_obs2 (v : ArenaVec) (idx : Nat) : List ℚ :=
  if h : idx < v.arenas.length then Pyzalea.get_obs2 (v.arenas.get ⟨idx, h⟩)
  else List.replicate 27 0

def ArenaVec.is_done (v : ArenaVec) (idx : Nat) : Bool :=
  if h : idx < v.arenas.length then (v.arenas.get ⟨idx, h⟩).done else true

def ArenaVec.get_winner (v : ArenaVec) (idx : Nat) : Int :=
  if h : idx < v.arenas.length then (v.arenas.get ⟨idx, h⟩).winner else 0

/-! ## Reachability: states generated from reset by step -/

/-- Run a list of (action1, action2) pairs from a state, keeping the state. -/
def runSteps (s : FastArena) (acts : List (FighterAction × FighterAction)) : FastArena :=
  acts.foldl (fun st p => (step st p.1 p.2).1) s

/-- States of an arena built by FastArena::new that are reachable from some
reset under some action sequence. -/
def Reachable (arena_size : ℚ) (max_ticks : Nat) (s : FastArena) : Prop :=
  ∃ d acts, s = runSteps (reset (FastArena.new arena_size max_ticks) d) acts

/-! ## Invariant predicates and concrete scenarios used by the theorems -/

/-- Bounds that every fighter of a reachable state satisfies: food stays in
[17.9, 20] (the passive-regen drain of 0.1 fires only at food ≥ 18, and
eating only raises food, capped at 20) and health never exceeds 20. -/
def GoodFighter (f : Fighter) : Prop :=
  179/10 ≤ f.food ∧ f.food ≤ 20 ∧ f.health ≤ 20

def InvArena (s : FastArena) : Prop :=
  GoodFighter s.fighter1 ∧ GoodFighter s.fighter2

/-- Mirror of an observation vector across the x axis (self/opponent swap of
the spawn-symmetric state): negates the x position, the x velocities of both
sides, the yaw, the relative x displacement and the bearing angle; keeps the
y/z entries, the distance and every scalar entry. -/
def mirrorObs (l : List ℚ) : List ℚ :=
  match l with
  | [a0, a1, a2, a3, a4, a5, a6, a7, a8, a9, a10, a11, a12, a13, a14, a15, a16,
     a17, a18, a19, a20, a21, a22, a23, a24, a25, a26, a27, a28, a29, a30] =>
    [-a0, a1, a2, -a3, a4, a5, a6, a7, a8, -a9, a10, a11, a12, -a13, a14, a15, a16,
     a17, -a18, -a19, a20, a21, a22, a23, a24, a25, a26, a27, a28, a29, a30]
  | l2 => l2

def atkAction : FighterAction := { FighterAction.default with attack := true }

def idleAction : FighterAction := FighterAction.default

def eatAction : FighterAction := { FighterAction.default with eat := true }

def jumpAction : FighterAction := { FighterAction.default with jump := true }

/-- A 2x2 arena with the fighters spawned 2 blocks apart: they stand in
attack range, facing each other, and knockback pins them to the walls. -/
def traceArena : FastArena := reset (FastArena.new 2 2400) 2

/-- Action pairs for 170 ticks of both fighters holding only the attack intent. -/
def mutualActs : List (FighterAction × FighterAction) :=
  List.replicate 170 (atkAction, atkAction)

/-- The state after those 170 ticks: both fighters stand at health 0.65,
food 17.9, one more mutual exchange away from a double kill. -/
def mutualTraceEnd : FastArena := runSteps traceArena mutualActs

/-- A 32x32 arena with the fighters spawned 30 blocks apart after reset:
fighter 1 is grounded with jump_cooldown 0, no reward shaping from
proximity or combat applies at that distance. -/
def c3State : FastArena := reset (FastArena.new 32 2400) 30

/-- A non-terminal state in which both fighters already stand at health -5
(food 0, so no passive regen revives anyone during the step). -/
def c2WitState : FastArena :=
  { FastArena.new 2 2400 with
    fighter1 := { Fighter.default with health := -5, food := 0 }
    fighter2 := { Fighter.default with health := -5, food := 0 } }

def doneState : FastArena := { FastArena.new 2 2400 with done := true }

/-- Fighters 10 blocks apart (attack range is 3). -/
def c7State : FastArena :=
  { FastArena.new 32 2400 with fighter2 := { Fighter.default with x := 10 } }

/-- Defender 2 blocks away along +z, mid-eating with 5 ticks left; the
attacker spawns with yaw 0, which faces +z. -/
def c8State : FastArena :=
  { FastArena.new 32 2400 with
    fighter2 := { Fighter.default with z := 2, eating := true, eating_ticks := 5 } }

/-- Defender 2 blocks away along +z, eating with exactly 1 tick left,
food 10 and steaks 10. -/
def c9WitState : FastArena :=
  { FastArena.new 32 2400 with
    fighter2 := { Fighter.default with
      z := 2, eating := true, eating_ticks := 1, food := 10, steaks := 10 } }

/-! ## Helper lemmas -/

lemma apply_movement_food (s : FastArena) (f : Fighter) (a : FighterAction) :
    (apply_movement s f a).food = f.food := rfl

lemma apply_movement_health (s : FastArena) (f : Fighter) (a : FighterAction) :
    (apply_movement s f a).health = f.health := rfl

lemma goodFighter_apply_movement (s : FastArena) (f : Fighter) (a : FighterAction)
    (h : GoodFighter f) : GoodFighter (apply_movement s f a) := by
  simpa [GoodFighter, apply_movement_food, apply_movement_health] using h

/-- try_attack never touches food or steaks, and never raises a health. -/
lemma try_attack_fields (s : FastArena) (i : Nat) :
    (try_attack s i).1.fighter1.food = s.fighter1.food ∧
    (try_attack s i).1.fighter2.food = s.fighter2.food ∧
    (try_attack s i).1.fighter1.steaks = s.fighter1.steaks ∧
    (try_attack s i).1.fighter2.steaks = s.fighter2.steaks ∧
    (try_attack s i).1.fighter1.health ≤ s.fighter1.health ∧
    (try_attack s i).1.fighter2.health ≤ s.fighter2.health := by
  simp only [try_attack, BASE_DAMAGE_IRON_SWORD, SPRINT_CRIT_MULTIPLIER,
    DIAMOND_ARMOR_REDUCTION]
  split_ifs <;> simp_all <;> norm_num

lemma try_attack_good (s : FastArena) (i : Nat) (h : InvArena s) :
    InvArena (try_attack s i).1 := by
  obtain ⟨⟨h11, h12, h13⟩, h21, h22, h23⟩ := h
  obtain ⟨e1, e2, e3, e4, e5, e6⟩ := try_attack_fields s i
  exact ⟨⟨by rw [e1]; exact h11, by rw [e1]; exact h12, le_trans e5 h13⟩,
    by rw [e2]; exact h21, by rw [e2]; exact h22, le_trans e6 h23⟩

lemma process_eating_good (f : Fighter) (w : Bool) (h : GoodFighter f) :
    GoodFighter (process_eating f w) := by
  obtain ⟨h1, h2, h3⟩ := h
  simp only [process_eating, GoodFighter, MAX_FOOD, MAX_HEALTH, FOOD_PER_STEAK,
    FOOD_HEAL_THRESHOLD, FOOD_HEAL_AMOUNT, EAT_TICKS]
  split_ifs <;>
    refine ⟨?_, ?_, ?_⟩ <;>
    linarith [le_min (show (20:ℚ) ≤ f.food + 8 by linarith) (le_refl (20:ℚ)),
      min_le_right (f.food + 8) (20:ℚ),
      min_le_right (f.health + 1/20) (20:ℚ),
      min_le_right (f.health + 1 * (1/20)) (20:ℚ)]

lemma stepAfterCooldowns_good (s : FastArena) (h : InvArena s) :
    InvArena (stepAfterCooldowns s) := h

lemma stepAfterMovement_good (s : FastArena) (a1 a2 : FighterAction) (h : InvArena s) :
    InvArena (stepAfterMovement s a1 a2) := by
  obtain ⟨hf1, hf2⟩ := stepAfterCooldowns_good s h
  exact ⟨goodFighter_apply_movement _ _ _ hf1, goodFighter_apply_movement _ _ _ hf2⟩

lemma stepAttack1_good (s : FastArena) (a1 : FighterAction) (h : InvArena s) :
    InvArena (stepAttack1 s a1).1 := by
  simp only [stepAttack1]
  split_ifs
  · exact try_attack_good _ _ h
  · exact h

lemma stepAttack2_good (s : FastArena) (a2 : FighterAction) (h : InvArena s) :
    InvArena (stepAttack2 s a2).1 := by
  simp only [stepAttack2]
  split_ifs
  · exact try_attack_good _ _ h
  · exact h

lemma stepAttacksResult_good (s : FastArena) (a1 a2 : FighterAction) (h : InvArena s) :
    InvArena (stepAttacksResult s a1 a2).1 := by
  have hm := stepAfterMovement_good s a1 a2 h
  exact stepAttack2_good _ _ (stepAttack1_good _ _ hm)

lemma stepAfterEating_good (s : FastArena) (a1 a2 : FighterAction) (h : InvArena s) :
    InvArena (stepAfterEating s a1 a2) := by
  obtain ⟨hf1, hf2⟩ := stepAttacksResult_good s a1 a2 h
  exact ⟨process_eating_good _ _ hf1, process_eating_good _ _ hf2⟩

lemma stepCore_fighters (s : FastArena) (a1 a2 : FighterAction) :
    (stepCore s a1 a2).1.fighter1 = (stepAfterEating s a1 a2).fighter1 ∧
    (stepCore s a1 a2).1.fighter2 = (stepAfterEating s a1 a2).fighter2 := by
  simp only [stepCore]
  split_ifs <;> exact ⟨rfl, rfl⟩

lemma step_good (s : FastArena) (a1 a2 : FighterAction) (h : InvArena s) :
    InvArena (step s a1 a2).1 := by
  by_cases hd : s.done
  · simpa [step, hd] using h
  · have he := stepAfterEating_good s a1 a2 h
    obtain ⟨e1, e2⟩ := stepCore_fighters s a1 a2
    simp only [step, hd, if_false, Bool.false_eq_true, InvArena]
    exact ⟨by rw [e1]; exact he.1, by rw [e2]; exact he.2⟩

lemma reset_good (s : FastArena) (d : ℚ) : InvArena (reset s d) := by
  refine ⟨⟨?_, ?_, ?_⟩, ?_, ?_, ?_⟩ <;>
    norm_num [reset, Fighter.default, MAX_FOOD, MAX_HEALTH]

lemma runSteps_good (acts : List (FighterAction × FighterAction)) (s : FastArena)
    (h : InvArena s) : InvArena (runSteps s acts) := by
  induction acts generalizing s with
  | nil => exact h
  | cons p t ih => exact ih _ (step_good _ _ _ h)

lemma reachable_good (sz : ℚ) (mt : Nat) (s : FastArena) (hr : Reachable sz mt s) :
    InvArena s := by
  obtain ⟨d, acts, rfl⟩ := hr
  exact runSteps_good _ _ (reset_good _ _)

set_option maxRecDepth 100000 in
/-- Evaluation of the mutual-attack trace: at tick 171 both attacks land,
both healths end at -0.55, and the winner declared is fighter 2. -/
lemma traceFacts :
    (stepAttacksResult mutualTraceEnd atkAction atkAction).2 = (true, true) ∧
    (step mutualTraceEnd atkAction atkAction).1.fighter1.health = -11/20 ∧
    (step mutualTraceEnd atkAction atkAction).1.fighter2.health = -11/20 ∧
    (step mutualTraceEnd atkAction atkAction).1.winner = 2 ∧
    (step mutualTraceEnd atkAction atkAction).1.done = true :=
  of_decide_eq_true (by with_unfolding_all rfl)

/-! ## Claim theorems -/

/-- Claim C1, amended: after step from any reachable state, the health of
each fighter is at most 20 and the food of each fighter is in [0, 20].  The
claimed lower clamp of health at 0 does not exist in the code: a lethal hit
leaves the health of the defender negative (see the counterexample). -/
theorem c1_theorem (sz : ℚ) (mt : Nat) (s : FastArena) (a1 a2 : FighterAction)
    (hr : Reachable sz mt s) :
    (step s a1 a2).1.fighter1.health ≤ 20 ∧
    0 ≤ (step s a1 a2).1.fighter1.food ∧ (step s a1 a2).1.fighter1.food ≤ 20 ∧
    (step s a1 a2).1.fighter2.health ≤ 20 ∧
    0 ≤ (step s a1 a2).1.fighter2.food ∧ (step s a1 a2).1.fighter2.food ≤ 20 := by
  obtain ⟨⟨f1a, f1b, f1c⟩, f2a, f2b, f2c⟩ := step_good s a1 a2 (reachable_good sz mt s hr)
  exact ⟨f1c, by linarith, f1b, f2c, by linarith, f2b⟩

/-- Witness for C1 at the reset state of the 2x2 arena. -/
theorem c1_witness :
    Reachable 2 2400 (reset (FastArena.new 2 2400) 2) ∧
    ((step (reset (FastArena.new 2 2400) 2) atkAction atkAction).1.fighter1.health ≤ 20 ∧
     0 ≤ (step (reset (FastArena.new 2 2400) 2) atkAction atkAction).1.fighter1.food ∧
     (step (reset (FastArena.new 2 2400) 2) atkAction atkAction).1.fighter1.food ≤ 20 ∧
     (step (reset (FastArena.new 2 2400) 2) atkAction atkAction).1.fighter2.health ≤ 20 ∧
     0 ≤ (step (reset (FastArena.new 2 2400) 2) atkAction atkAction).1.fighter2.food ∧
     (step (reset (FastArena.new 2 2400) 2) atkAction atkAction).1.fighter2.food ≤ 20) :=
  ⟨⟨2, [], rfl⟩, c1_theorem 2 2400 _ atkAction atkAction ⟨2, [], rfl⟩⟩

/-- Counterexample to C1 as stated: a reachable state (170 ticks of mutual
attacks from reset(2) in a 2-block arena) in which the next step leaves
the health of fighter 2 strictly below 0 — health is not clamped at 0. -/
theorem c1_counterexample :
    Reachable 2 2400 mutualTraceEnd ∧
    (step mutualTraceEnd atkAction atkAction).1.fighter2.health < 0 := by
  refine ⟨⟨2, mutualActs, rfl⟩, ?_⟩
  rw [traceFacts.2.2.1]
  norm_num

/-- Claim C2, amended: when a tick ends with both healths at or below zero,
the termination check examines the health of fighter 1 first, so the match ends
with fighter TWO declared winner (winner = 2), not fighter 1. -/
theorem c2_theorem (s : FastArena) (a1 a2 : FighterAction) (hd : s.done = false)
    (h1 : (step s a1 a2).1.fighter1.health ≤ 0)
    (h2 : (step s a1 a2).1.fighter2.health ≤ 0) :
    (step s a1 a2).1.winner = 2 ∧ (step s a1 a2).1.done = true ∧
    (step s a1 a2).2.2.2 = true := by
  simp only [step, hd, Bool.false_eq_true, if_false] at h1 h2 ⊢
  simp only [stepCore] at h1 h2 ⊢
  split_ifs at h1 h2 ⊢ <;> simp_all

/-- Witness for C2 at a concrete non-terminal state with both healths -5. -/
theorem c2_witness :
    c2WitState.done = false ∧
    (step c2WitState idleAction idleAction).1.fighter1.health ≤ 0 ∧
    (step c2WitState idleAction idleAction).1.fighter2.health ≤ 0 ∧
    (step c2WitState idleAction idleAction).1.winner = 2 := by
  have hd : c2WitState.done = false := rfl
  have h1 : (step c2WitState idleAction idleAction).1.fighter1.health ≤ 0 :=
    of_decide_eq_true (by with_unfolding_all rfl)
  have h2 : (step c2WitState idleAction idleAction).1.fighter2.health ≤ 0 :=
    of_decide_eq_true (by with_unfolding_all rfl)
  exact ⟨hd, h1, h2, (c2_theorem c2WitState idleAction idleAction hd h1 h2).1⟩

/-- Counterexample to C2 as stated: in the reachable mutual-attack trace,
tick 171 has both attacks land and both healths end below zero, and the
match ends with winner = 2 (fighter 2), not fighter 1 as claimed. -/
theorem c2_counterexample :
    Reachable 2 2400 mutualTraceEnd ∧
    (stepAttacksResult mutualTraceEnd atkAction atkAction).2 = (true, true) ∧
    (step mutualTraceEnd atkAction atkAction).1.fighter1.health ≤ 0 ∧
    (step mutualTraceEnd atkAction atkAction).1.fighter2.health ≤ 0 ∧
    (step mutualTraceEnd atkAction atkAction).1.done = true ∧
    (step mutualTraceEnd atkAction atkAction).1.winner ≠ 1 ∧
    (step mutualTraceEnd atkAction atkAction).1.winner = 2 := by
  obtain ⟨ha, hh1, hh2, hw, hdone⟩ := traceFacts
  refine ⟨⟨2, mutualActs, rfl⟩, ha, ?_, ?_, hdone, ?_, hw⟩
  · rw [hh1]; norm_num
  · rw [hh2]; norm_num
  · rw [hw]; norm_num

/-- Claim C10: in every reachable state the food of each fighter lies in
[17.9, 20]; in particular it always exceeds the sprint threshold 6. -/
theorem c10_theorem (sz : ℚ) (mt : Nat) (s : FastArena) (hr : Reachable sz mt s) :
    (179/10 ≤ s.fighter1.food ∧ s.fighter1.food ≤ 20 ∧ 6 < s.fighter1.food) ∧
    (179/10 ≤ s.fighter2.food ∧ s.fighter2.food ≤ 20 ∧ 6 < s.fighter2.food) := by
  obtain ⟨⟨f1a, f1b, _⟩, f2a, f2b, _⟩ := reachable_good sz mt s hr
  exact ⟨⟨f1a, f1b, by linarith⟩, f2a, f2b, by linarith⟩

/-- Witness for C10 at the state reached after the 170-tick mutual-attack
trace (where food has in fact drained to exactly 17.9). -/
theorem c10_witness :
    Reachable 2 2400 mutualTraceEnd ∧
    (179/10 ≤ mutualTraceEnd.fighter1.food ∧ mutualTraceEnd.fighter1.food ≤ 20 ∧
      6 < mutualTraceEnd.fighter1.food) ∧
    (179/10 ≤ mutualTraceEnd.fighter2.food ∧ mutualTraceEnd.fighter2.food ≤ 20 ∧
      6 < mutualTraceEnd.fighter2.food) :=
  ⟨⟨2, mutualActs, rfl⟩, (c10_theorem 2 2400 mutualTraceEnd ⟨2, mutualActs, rfl⟩).1,
    (c10_theorem 2 2400 mutualTraceEnd ⟨2, mutualActs, rfl⟩).2⟩

/-- Claim C5: once the terminal flag is set, step with any actions returns
exactly (0, 0, true) and returns the state itself, so every field of both
fighters, the tick counter and the winner are unchanged. -/
theorem c5_theorem (s : FastArena) (a1 a2 : FighterAction) (h : s.done = true) :
    step s a1 a2 = (s, 0, 0, true) := by
  simp [step, h]

/-- Witness for C5 at a concrete terminal state. -/
theorem c5_witness :
    doneState.done = true ∧ step doneState idleAction idleAction = (doneState, 0, 0, true) :=
  ⟨rfl, c5_theorem doneState idleAction idleAction rfl⟩

set_option maxRecDepth 100000 in
/-- Claim C3 (code bug): after reset(30) in a 32-block arena, fighter 1 is
grounded, not eating, with jump cooldown 0, so its jump intent is accepted
(it becomes airborne and the cooldown is set to 10) — yet the reward still
includes the -0.03 jump penalty: the reward of the tick is -0.031 instead of the
-0.001 earned by the same state with no jump intent, because the penalty
reads the jump cooldown after the accepted jump already set it to 10. -/
theorem c3_theorem :
    c3State.fighter1.on_ground = true ∧
    c3State.fighter1.eating = false ∧
    c3State.fighter1.jump_cooldown = 0 ∧
    (step c3State jumpAction idleAction).1.fighter1.on_ground = false ∧
    (step c3State jumpAction idleAction).1.fighter1.jump_cooldown = 10 ∧
    (step c3State jumpAction idleAction).2.1 = -31/1000 ∧
    (step c3State idleAction idleAction).2.1 = -1/1000 :=
  of_decide_eq_true (by with_unfolding_all rfl)

set_option maxRecDepth 100000 in
/-- Claim C4 (code bug): out-of-range batch calls return the documented
neutral defaults and mutate nothing, but the neutral observation is 27
zeros while an in-range observation has 31 entries. -/
theorem c4_theorem :
    (ArenaVec.get_obs1 (ArenaVec.new 1 32 2400) 1).length = 27 ∧
    (ArenaVec.get_obs2 (ArenaVec.new 1 32 2400) 1).length = 27 ∧
    (ArenaVec.get_obs1 (ArenaVec.new 1 32 2400) 0).length = 31 ∧
    ArenaVec.get_obs1 (ArenaVec.new 1 32 2400) 1 = List.replicate 27 0 ∧
    ArenaVec.step (ArenaVec.new 1 32 2400) 1 idleAction idleAction =
      (ArenaVec.new 1 32 2400, 0, 0, true) ∧
    ArenaVec.is_done (ArenaVec.new 1 32 2400) 1 = true ∧
    ArenaVec.get_winner (ArenaVec.new 1 32 2400) 1 = 0 :=
  of_decide_eq_true (by with_unfolding_all rfl)

/-- Claim C7: whenever the modelled Euclidean distance between the two
fighters exceeds the attack range, an attack attempt by either fighter
misses and returns the state unchanged, regardless of cooldowns. -/
theorem c7_theorem (s : FastArena)
    (h : ATTACK_RANGE < sqrtQ
      ((s.fighter2.x - s.fighter1.x) * (s.fighter2.x - s.fighter1.x) +
       (s.fighter2.y - s.fighter1.y) * (s.fighter2.y - s.fighter1.y) +
       (s.fighter2.z - s.fighter1.z) * (s.fighter2.z - s.fighter1.z))) :
    try_attack s 0 = (s, false) ∧ try_attack s 1 = (s, false) := by
  have heq : (s.fighter1.x - s.fighter2.x) * (s.fighter1.x - s.fighter2.x) +
      (s.fighter1.y - s.fighter2.y) * (s.fighter1.y - s.fighter2.y) +
      (s.fighter1.z - s.fighter2.z) * (s.fighter1.z - s.fighter2.z) =
      (s.fighter2.x - s.fighter1.x) * (s.fighter2.x - s.fighter1.x) +
      (s.fighter2.y - s.fighter1.y) * (s.fighter2.y - s.fighter1.y) +
      (s.fighter2.z - s.fighter1.z) * (s.fighter2.z - s.fighter1.z) := by ring
  constructor <;>
  · simp only [try_attack]
    norm_num
    split_ifs <;> first | rfl | simp_all

/-- Witness for C7 at a concrete state with the fighters 10 blocks apart. -/
theorem c7_witness :
    (ATTACK_RANGE < sqrtQ
      ((c7State.fighter2.x - c7State.fighter1.x) * (c7State.fighter2.x - c7State.fighter1.x) +
       (c7State.fighter2.y - c7State.fighter1.y) * (c7State.fighter2.y - c7State.fighter1.y) +
       (c7State.fighter2.z - c7State.fighter1.z) * (c7State.fighter2.z - c7State.fighter1.z))) ∧
    try_attack c7State 0 = (c7State, false) ∧ try_attack c7State 1 = (c7State, false) := by
  have h : ATTACK_RANGE < sqrtQ
      ((c7State.fighter2.x - c7State.fighter1.x) * (c7State.fighter2.x - c7State.fighter1.x) +
       (c7State.fighter2.y - c7State.fighter1.y) * (c7State.fighter2.y - c7State.fighter1.y) +
       (c7State.fighter2.z - c7State.fighter1.z) * (c7State.fighter2.z - c7State.fighter1.z)) :=
    of_decide_eq_true (by with_unfolding_all rfl)
  exact ⟨h, (c7_theorem c7State h).1, (c7_theorem c7State h).2⟩

/-- Claim C8: a hit that interrupts an eating defender (countdown still
positive) grants no food: the food and steak count of the defender are exactly
unchanged by the attack, the eating flag is cleared and the countdown is
reset to 0.  Stated for either fighter as the defender. -/
theorem c8_theorem (s : FastArena) :
    (s.fighter2.eating = true → 0 < s.fighter2.eating_ticks → (try_attack s 0).2 = true →
      (try_attack s 0).1.fighter2.food = s.fighter2.food ∧
      (try_attack s 0).1.fighter2.steaks = s.fighter2.steaks ∧
      (try_attack s 0).1.fighter2.eating = false ∧
      (try_attack s 0).1.fighter2.eating_ticks = 0) ∧
    (s.fighter1.eating = true → 0 < s.fighter1.eating_ticks → (try_attack s 1).2 = true →
      (try_attack s 1).1.fighter1.food = s.fighter1.food ∧
      (try_attack s 1).1.fighter1.steaks = s.fighter1.steaks ∧
      (try_attack s 1).1.fighter1.eating = false ∧
      (try_attack s 1).1.fighter1.eating_ticks = 0) := by
  constructor <;> intro he ht hh <;>
  · simp only [try_attack] at hh ⊢
    norm_num at hh ⊢
    split_ifs at hh ⊢ <;> simp_all

/-- Witness for C8: a hit on a defender mid-eating (countdown 5). -/
theorem c8_witness :
    c8State.fighter2.eating = true ∧ 0 < c8State.fighter2.eating_ticks ∧
    (try_attack c8State 0).2 = true ∧
    ((try_attack c8State 0).1.fighter2.food = c8State.fighter2.food ∧
     (try_attack c8State 0).1.fighter2.steaks = c8State.fighter2.steaks ∧
     (try_attack c8State 0).1.fighter2.eating = false ∧
     (try_attack c8State 0).1.fighter2.eating_ticks = 0) := by
  have he : c8State.fighter2.eating = true := rfl
  have ht : 0 < c8State.fighter2.eating_ticks := of_decide_eq_true (by with_unfolding_all rfl)
  have hh : (try_attack c8State 0).2 = true := of_decide_eq_true (by with_unfolding_all rfl)
  exact ⟨he, ht, hh, (c8_theorem c8State).1 he ht hh⟩

lemma try_attack_hit0_f2eating (s : FastArena) (hh : (try_attack s 0).2 = true) :
    (try_attack s 0).1.fighter2.eating = false := by
  simp only [try_attack] at hh ⊢
  norm_num at hh ⊢
  split_ifs at hh ⊢ <;> simp_all

lemma stepAttack2_keeps_f2 (s : FastArena) (a2 : FighterAction) :
    (stepAttack2 s a2).1.fighter2.eating = s.fighter2.eating ∧
    (stepAttack2 s a2).1.fighter2.food = s.fighter2.food := by
  simp only [stepAttack2, try_attack]
  norm_num
  split_ifs <;> simp_all

lemma stepAfterMovement_f2food (s : FastArena) (a1 a2 : FighterAction) :
    (stepAfterMovement s a1 a2).fighter2.food = s.fighter2.food := rfl

lemma stepAttack1_hit (s : FastArena) (a1 : FighterAction) (hh : (stepAttack1 s a1).2 = true) :
    (stepAttack1 s a1).1.fighter2.eating = false ∧
    (stepAttack1 s a1).1.fighter2.food = s.fighter2.food := by
  simp only [stepAttack1] at hh ⊢
  split_ifs at hh ⊢
  exact ⟨try_attack_hit0_f2eating s hh, (try_attack_fields s 0).2.1⟩

lemma attacksPhase_interrupts (s : FastArena) (a1 a2 : FighterAction)
    (hh : (stepAttacksResult s a1 a2).2.1 = true) :
    (stepAttacksResult s a1 a2).1.fighter2.eating = false ∧
    (stepAttacksResult s a1 a2).1.fighter2.food = s.fighter2.food := by
  have hh2 : (stepAttack1 (stepAfterMovement s a1 a2) a1).2 = true := hh
  obtain ⟨he, hf⟩ := stepAttack1_hit (stepAfterMovement s a1 a2) a1 hh2
  have hk := stepAttack2_keeps_f2 (stepAttack1 (stepAfterMovement s a1 a2) a1).1 a2
  have e1 : (stepAttacksResult s a1 a2).1 =
      (stepAttack2 (stepAttack1 (stepAfterMovement s a1 a2) a1).1 a2).1 := rfl
  rw [e1]
  exact ⟨hk.1.trans he, hk.2.trans (hf.trans (stepAfterMovement_f2food s a1 a2))⟩

lemma process_eating_noneat_food (f : Fighter) (w : Bool) (hf : f.eating = false)
    (hp : (process_eating f w).eating = false) :
    (process_eating f w).food ≤ f.food := by
  simp only [process_eating, MAX_FOOD, FOOD_HEAL_THRESHOLD, FOOD_HEAL_AMOUNT,
    FOOD_PER_STEAK, MAX_HEALTH, EAT_TICKS, hf] at hp ⊢
  split_ifs at hp ⊢ <;> simp_all

/-- Claim C9: when a hit interrupts a defender whose eating countdown stood
at exactly 1 at the start of the tick, the step classifies the outcome by
the flags that gate the +0.5 completion bonus and the -0.3 interruption
penalty: if the defender does not re-enter eating the same tick, the
finished flag is set (bonus paid) and the interrupted flag is not, even
though no food was restored; if the defender re-enters eating, neither
flag is set. -/
theorem c9_theorem (s : FastArena) (a1 a2 : FighterAction)
    (he : s.fighter2.eating = true) (ht : s.fighter2.eating_ticks = 1)
    (hh : (stepAttacksResult s a1 a2).2.1 = true) :
    ((stepAfterEating s a1 a2).fighter2.eating = false →
      finished_eating2 s a1 a2 = true ∧ interrupted_eating2 s a1 a2 = false ∧
      (stepAfterEating s a1 a2).fighter2.food ≤ s.fighter2.food) ∧
    ((stepAfterEating s a1 a2).fighter2.eating = true →
      finished_eating2 s a1 a2 = false ∧ interrupted_eating2 s a1 a2 = false) := by
  obtain ⟨hae, haf⟩ := attacksPhase_interrupts s a1 a2 hh
  constructor
  · intro hp
    refine ⟨?_, ?_, ?_⟩
    · simp [finished_eating2, he, ht, hp]
    · simp [interrupted_eating2, ht]
    · have hpf : (process_eating (stepAttacksResult s a1 a2).1.fighter2 a2.eat).eating = false := hp
      have hle := process_eating_noneat_food (stepAttacksResult s a1 a2).1.fighter2 a2.eat hae hpf
      calc (stepAfterEating s a1 a2).fighter2.food
          = (process_eating (stepAttacksResult s a1 a2).1.fighter2 a2.eat).food := rfl
        _ ≤ (stepAttacksResult s a1 a2).1.fighter2.food := hle
        _ = s.fighter2.food := haf
  · intro hp
    exact ⟨by simp [finished_eating2, hp], by simp [interrupted_eating2, ht]⟩

/-- Witness for C9: both branches exercised at a concrete hit on a defender
with countdown 1 (re-eating vs not re-eating). -/
theorem c9_witness :
    c9WitState.fighter2.eating = true ∧ c9WitState.fighter2.eating_ticks = 1 ∧
    (stepAttacksResult c9WitState atkAction idleAction).2.1 = true ∧
    (stepAfterEating c9WitState atkAction idleAction).fighter2.eating = false ∧
    (finished_eating2 c9WitState atkAction idleAction = true ∧
     interrupted_eating2 c9WitState atkAction idleAction = false ∧
     (stepAfterEating c9WitState atkAction idleAction).fighter2.food ≤
       c9WitState.fighter2.food) ∧
    (stepAttacksResult c9WitState atkAction eatAction).2.1 = true ∧
    (stepAfterEating c9WitState atkAction eatAction).fighter2.eating = true ∧
    (finished_eating2 c9WitState atkAction eatAction = false ∧
     interrupted_eating2 c9WitState atkAction eatAction = false) := by
  have he : c9WitState.fighter2.eating = true := rfl
  have ht : c9WitState.fighter2.eating_ticks = 1 := rfl
  have hha : (stepAttacksResult c9WitState atkAction idleAction).2.1 = true :=
    of_decide_eq_true (by with_unfolding_all rfl)
  have hpa : (stepAfterEating c9WitState atkAction idleAction).fighter2.eating = false :=
    of_decide_eq_true (by with_unfolding_all rfl)
  have hhb : (stepAttacksResult c9WitState atkAction eatAction).2.1 = true :=
    of_decide_eq_true (by with_unfolding_all rfl)
  have hpb : (stepAfterEating c9WitState atkAction eatAction).fighter2.eating = true :=
    of_decide_eq_true (by with_unfolding_all rfl)
  exact ⟨he, ht, hha, hpa, (c9_theorem c9WitState atkAction idleAction he ht hha).1 hpa,
    hhb, hpb, (c9_theorem c9WitState atkAction eatAction he ht hhb).2 hpb⟩

lemma natSqrtAux_exact (n m : Nat) (hm : m * m ≤ n) (hmax : ∀ j, j * j ≤ n → j ≤ m) :
    ∀ k, m ≤ k → natSqrtAux n k = m := by
  intro k
  induction k with
  | zero =>
    intro h
    have hm0 : m = 0 := Nat.le_zero.mp h
    simp [natSqrtAux, hm0]
  | succ k ih =>
    intro hk
    by_cases hs : (k+1) * (k+1) ≤ n
    · have h1 : k+1 ≤ m := hmax _ hs
      have h2 : m = k+1 := le_antisymm hk h1
      simp [natSqrtAux, hs, h2]
    · have hml : m ≤ k := by
        rcases Nat.lt_or_ge m (k+1) with h | h
        · omega
        · exact absurd (le_trans (Nat.mul_le_mul h h) hm) hs
      simp only [natSqrtAux, hs, if_false]
      exact ih hml

lemma natSqrt_sq (m : Nat) : natSqrt (m * m) = m := by
  have hle : m ≤ m * m := by
    rcases Nat.eq_zero_or_pos m with h | h
    · simp [h]
    · calc m = m * 1 := (Nat.mul_one m).symm
        _ ≤ m * m := Nat.mul_le_mul_left m h
  refine natSqrtAux_exact (m * m) m le_rfl ?_ (m * m) hle
  intro j hj
  by_contra hlt
  push_neg at hlt
  have hjj : m * m < j * j := Nat.mul_lt_mul_of_lt_of_le hlt (le_of_lt hlt) (by omega)
  omega

/-- sqrtQ is exact on squares of positive rationals. -/
lemma sqrtQ_sq (d : ℚ) (hd : 0 < d) : sqrtQ (d * d) = d := by
  have hpos : 0 < d * d := mul_pos hd hd
  rw [sqrtQ, if_neg (not_le.mpr hpos)]
  have hnum : (d * d).num = d.num * d.num := d.mul_self_num
  have hden : (d * d).den = d.den * d.den := d.mul_self_den
  have hn0 : 0 < d.num := Rat.num_pos.mpr hd
  obtain ⟨n, hn⟩ : ∃ n : ℕ, d.num = (n : ℤ) := ⟨d.num.toNat, (Int.toNat_of_nonneg hn0.le).symm⟩
  rw [hnum, hden, hn]
  have h1 : ((n : ℤ) * (n : ℤ)).toNat = n * n := by
    rw [← Nat.cast_mul, Int.toNat_natCast]
  rw [h1]
  have h2 : n * n * (d.den * d.den) = (n * d.den) * (n * d.den) := by ring
  rw [h2, natSqrt_sq]
  have hden0 : ((d.den : ℚ)) ≠ 0 := Nat.cast_ne_zero.mpr d.den_nz
  push_cast
  rw [div_eq_iff (mul_ne_zero hden0 hden0)]
  have key : d * (d.den : ℚ) = (n : ℚ) := by
    have h3 : ((d.num : ℤ) : ℚ) = ((n : ℕ) : ℚ) := by rw [hn]; push_cast; ring
    rw [← h3]
    nth_rewrite 1 [← Rat.num_div_den d]
    rw [div_mul_cancel₀ _ hden0]
  calc ((n : ℕ) : ℚ) * (d.den : ℚ) = (d * (d.den : ℚ)) * (d.den : ℚ) := by rw [key]
    _ = d * ((d.den : ℚ) * (d.den : ℚ)) := by ring

lemma atan2Deg_pos_zero (y : ℚ) (hy : 0 < y) : atan2Deg y 0 = 90 := by
  simp [atan2Deg, hy]

lemma atan2Deg_neg_zero (y : ℚ) (hy : y < 0) : atan2Deg y 0 = -90 := by
  simp [atan2Deg, hy, asymm hy]

/-- Claim C6: after reset(d) the two observation vectors are perspective
mirrors of each other — the vector of fighter 2 equals that of fighter 1 with the
x-axis quantities (position, velocities, yaw, relative displacement,
bearing) negated and everything else (distances, healths, flags) kept —
and the two vectors are not merely global sign flips of each other. -/
theorem c6_theorem (a : FastArena) (d : ℚ) (hd : 0 < d) :
    get_obs2 (reset a d) = mirrorObs (get_obs1 (reset a d)) ∧
    get_obs2 (reset a d) ≠ List.map (fun v => -v) (get_obs1 (reset a d)) := by
  constructor
  · unfold get_obs1 get_obs2 get_obs reset cooldown_progress mirrorObs
    norm_num [Fighter.default, MAX_HEALTH, MAX_FOOD, EAT_TICKS]
    refine ⟨by ring, by ring, ?_, ?_⟩
    · rw [show (-d / 2 - d / 2) * (-d / 2 - d / 2) = d * d from by ring,
          show (d / 2 - -d / 2) * (d / 2 - -d / 2) = d * d from by ring]
    · rw [show (-d / 2 - d / 2) = -d from by ring, show (d / 2 - -d / 2) = d from by ring,
          atan2Deg_pos_zero d hd, atan2Deg_neg_zero (-d) (by linarith)]
      norm_num
  · unfold get_obs1 get_obs2 get_obs reset cooldown_progress
    intro h
    norm_num [Fighter.default, MAX_HEALTH, MAX_FOOD, EAT_TICKS] at h

/-- Witness for C6 at spawn distance 4. -/
theorem c6_witness :
    (0:ℚ) < 4 ∧
    get_obs2 (reset (FastArena.new 32 2400) 4) =
      mirrorObs (get_obs1 (reset (FastArena.new 32 2400) 4)) :=
  ⟨by norm_num, (c6_theorem (FastArena.new 32 2400) 4 (by norm_num)).1⟩

end Pyzalea
